import Mathlib

/-!
Verification development for the voice customer-support agent.

Shallow embedding of the audio codec utilities (`src/utils/audio.utils.ts`),
the audio pipeline orchestrator (`AudioPipelineService`), and the chat API
rate limiting (`src/app/api/chat/route.ts`, `src/utils/redis.ts`).

Conventions of the embedding:
- a Node `Buffer` is a `List Nat` of byte values (each in 0..255);
- JavaScript floating point arithmetic is modelled with exact rationals `ℚ`
  (every numeric path proved or refuted here stays far from float rounding
  boundaries);
- `Math.round` is modelled as `jsRound` (round half towards positive infinity);
- fallible operations return `Except String`, JS `null` is `Option.none`;
- external collaborators (speech recognition, chat reply generation, text to
  speech, the redis client) are abstract function parameters;
- wall-clock time (`Date.now()`) is an explicit parameter; logging and the
  per-session rolling statistics (`sessionStats`, `processingTime`) are pure
  observers of the state and are omitted.
-/

namespace AudioUtils

/-- Model of JavaScript `Math.round`: round half away towards `+∞`. -/
def jsRound (q : ℚ) : ℤ := ⌊q + 1/2⌋

/-- Clamp an integer into the byte range 0..255 and view it as a byte,
modelling `Math.max(0, Math.min(255, v))` followed by a `Buffer` store. -/
def clampByte (v : ℤ) : Nat := (max 0 (min 255 v)).toNat

/-- `AudioUtils.resample(audioBuffer, fromSampleRate, toSampleRate)`
(src/utils/audio.utils.ts lines 18-42): linear-interpolation resampling.
When the rates agree the input is returned unchanged; otherwise each output
byte interpolates between the two nearest source bytes. -/
def resample (audioBuffer : List Nat) (fromSampleRate toSampleRate : Nat) : List Nat :=
  if fromSampleRate = toSampleRate then audioBuffer
  else
    let rq : ℚ := (fromSampleRate : ℚ) / (toSampleRate : ℚ)
    let newLength : Nat := (⌊(audioBuffer.length : ℚ) / rq⌋).toNat
    (List.range newLength).map (fun i =>
      let oldIndex : ℚ := (i : ℚ) * rq
      let oldIndexFloor : Nat := (⌊oldIndex⌋).toNat
      let oldIndexCeil : Nat := min (oldIndexFloor + 1) (audioBuffer.length - 1)
      let fraction : ℚ := oldIndex - (oldIndexFloor : ℚ)
      let sample1 : Nat := audioBuffer.getD oldIndexFloor 0
      let sample2 : Nat := audioBuffer.getD oldIndexCeil 0
      (jsRound ((sample1 : ℚ) * (1 - fraction) + (sample2 : ℚ) * fraction)).toNat)

/-- `AudioUtils.convertChannels(audioBuffer, fromChannels, toChannels)`
(src/utils/audio.utils.ts lines 47-72): mono to stereo duplicates each byte
into two interleaved slots; stereo to mono averages interleaved pairs with
rounding; every other combination is a passthrough. -/
def convertChannels (audioBuffer : List Nat) (fromChannels toChannels : Nat) : List Nat :=
  if fromChannels = toChannels then audioBuffer
  else if fromChannels = 1 ∧ toChannels = 2 then
    (audioBuffer.map (fun b => [b, b])).flatten
  else if fromChannels = 2 ∧ toChannels = 1 then
    (List.range (audioBuffer.length / 2)).map (fun i =>
      let left : Nat := audioBuffer.getD (2 * i) 0
      let right : Nat := audioBuffer.getD (2 * i + 1) 0
      (jsRound (((left : ℚ) + (right : ℚ)) / 2)).toNat)
  else audioBuffer

/-- `AudioUtils.isPCM16(audioBuffer)` (src/utils/audio.utils.ts lines 114-117):
a buffer is taken to be 16-bit PCM exactly when its byte length is even. -/
def isPCM16 (audioBuffer : List Nat) : Bool := audioBuffer.length % 2 == 0

/-- `AudioUtils.toPCM16(audioBuffer, sampleRate, channels)`
(src/utils/audio.utils.ts lines 77-109).  The body first returns the buffer
unchanged when `isPCM16` holds, then throws on the empty buffer, returns
even-length buffers unchanged, and zero-pads odd-length buffers by one byte.
The thrown error is rethrown by the surrounding catch with a wrapper message.
The `sampleRate` and `channels` parameters are accepted but unused, as in the
source. -/
def toPCM16 (audioBuffer : List Nat) (_sampleRate _channels : Nat) :
    Except String (List Nat) :=
  if isPCM16 audioBuffer then Except.ok audioBuffer
  else if audioBuffer.length = 0 then
    Except.error "Failed to convert to PCM16: Error: Empty audio buffer"
  else if audioBuffer.length % 2 = 0 then Except.ok audioBuffer
  else Except.ok (audioBuffer ++ [0])

/-- Loop index of the `for` loop in `AudioUtils.chunkAudio`
(src/utils/audio.utils.ts line 130, `i += bytesPerChunk`): the value of `i`
after `n` iterations starting from 0. -/
def chunkAudioIndex (bytesPerChunk : Nat) : Nat → Nat
  | 0 => 0
  | n + 1 => chunkAudioIndex bytesPerChunk n + bytesPerChunk

/-- Fuelled model of the slicing loop of `AudioUtils.chunkAudio`
(src/utils/audio.utils.ts lines 130-135).  The loop guard `i <
audioBuffer.length` corresponds to the remaining buffer being non-empty;
`audioBuffer.slice(i, i + bytesPerChunk)` is `take bytesPerChunk` of the
remainder and advancing `i` by `bytesPerChunk` is `drop bytesPerChunk`.
Empty slices are not pushed, matching `if (chunk.length > 0)`.  The fuel
bounds the number of iterations; with `bytesPerChunk ≥ 1` a fuel of
`buffer.length` is always sufficient (proved below), while with
`bytesPerChunk = 0` the source loop never advances and does not terminate. -/
def chunkLoop (bytesPerChunk fuel : Nat) (audioBuffer : List Nat) : List (List Nat) :=
  match audioBuffer, fuel with
  | [], _ => []
  | _, 0 => []
  | buf, fuel + 1 =>
    let chunk := buf.take bytesPerChunk
    if chunk = [] then chunkLoop bytesPerChunk fuel (buf.drop bytesPerChunk)
    else chunk :: chunkLoop bytesPerChunk fuel (buf.drop bytesPerChunk)

/-- `AudioUtils.chunkAudio(audioBuffer, chunkSizeMs, sampleRate, channels)`
(src/utils/audio.utils.ts lines 122-138): splits a buffer into windows of
`floor(sampleRate * chunkSizeMs / 1000) * 2 * channels` bytes, keeping a
non-empty trailing partial chunk.  `audioBuffer.length + 1` fuel is enough
for every terminating execution of the source loop. -/
def chunkAudio (audioBuffer : List Nat) (chunkSizeMs sampleRate channels : Nat) :
    List (List Nat) :=
  let bytesPerSample := 2
  let bytesPerFrame := bytesPerSample * channels
  let samplesPerChunk := sampleRate * chunkSizeMs / 1000
  let bytesPerChunk := samplesPerChunk * bytesPerFrame
  chunkLoop bytesPerChunk (audioBuffer.length + 1) audioBuffer

/-- `AudioUtils.mergeChunks(chunks)` (src/utils/audio.utils.ts lines 143-154):
allocates a buffer of the total length and copies each chunk in order at
increasing offsets, i.e. ordered concatenation. -/
def mergeChunks (chunks : List (List Nat)) : List Nat := chunks.flatten

/-- `AudioUtils.addSilence(audioBuffer, silenceMs, sampleRate, channels)`
(src/utils/audio.utils.ts lines 159-167): computes the silence byte count
from the duration and concatenates `[audioBuffer, silenceBuffer]` — the
zero bytes go AFTER the audio content. -/
def addSilence (audioBuffer : List Nat) (silenceMs sampleRate channels : Nat) :
    List Nat :=
  let bytesPerSample := 2
  let bytesPerFrame := bytesPerSample * channels
  let silenceSamples := sampleRate * silenceMs / 1000
  let silenceBytes := silenceSamples * bytesPerFrame
  audioBuffer ++ List.replicate silenceBytes 0

/-- `AudioUtils.normalize(audioBuffer, targetLevel)`
(src/utils/audio.utils.ts lines 172-197): finds the peak deviation from the
8-bit midpoint 128, scales every byte so the peak maps to
`targetLevel * 128`, clamps to 0..255; identity when the peak is zero. -/
def normalize (audioBuffer : List Nat) (targetLevel : ℚ) : List Nat :=
  let maxAmplitude : Nat :=
    audioBuffer.foldl (fun m b => max m (Int.natAbs ((b : ℤ) - 128))) 0
  if maxAmplitude = 0 then audioBuffer
  else
    let scaleFactor : ℚ := targetLevel * 128 / (maxAmplitude : ℚ)
    audioBuffer.map (fun b =>
      clampByte (jsRound (((b : ℚ) - 128) * scaleFactor + 128)))

/-- `AudioUtils.getDuration(audioBuffer, sampleRate, channels)`
(src/utils/audio.utils.ts lines 216-221): duration in milliseconds,
`(length / (2 * channels)) / sampleRate * 1000`, computed in JS floating
point, modelled as an exact rational. -/
def getDuration (audioBuffer : List Nat) (sampleRate channels : Nat) : ℚ :=
  let bytesPerSample := 2
  let bytesPerFrame : ℚ := (bytesPerSample : ℚ) * (channels : ℚ)
  let totalSamples : ℚ := (audioBuffer.length : ℚ) / bytesPerFrame
  totalSamples / (sampleRate : ℚ) * 1000

end AudioUtils

namespace AudioPipeline

/-- `AudioPipelineConfig` (src/services/audio-pipeline.service.ts lines 5-13)
restricted to the fields the pipeline logic reads.  The constructor defaults
are `chunkSizeMs = 100`, `sampleRate = 16000`, `channels = 1`,
`enableAudioOptimization = true` (lines 35-42). -/
structure AudioPipelineConfig where
  chunkSizeMs : Nat
  sampleRate : Nat
  channels : Nat
  enableAudioOptimization : Bool
deriving DecidableEq, Repr

/-- Constructor defaults of `AudioPipelineService` (lines 35-42). -/
def defaultConfig : AudioPipelineConfig :=
  { chunkSizeMs := 100, sampleRate := 16000, channels := 1,
    enableAudioOptimization := true }

/-- `TranscriptionResult` from `speech.service.ts` (transcript plus a
confidence score); only the fields the pipeline reads. -/
structure TranscriptionResult where
  transcript : String
  confidence : ℚ
deriving DecidableEq

/-- Abstract external collaborators of one pipeline session.
`speech` models `speechService.processAudioChunk` (may reject with an
exception, may resolve to `null`); `chat` models `generateAIResponse`,
which catches its own errors and returns `null` on any failure; `tts`
models `ttsService.streamTextToSpeech` (may reject). -/
structure Collaborators where
  speech : List Nat → Except String (Option TranscriptionResult)
  chat : String → Option String
  tts : String → Except String (List Nat)

/-- `AudioProcessingResult` (src/services/audio-pipeline.service.ts lines
15-21).  The `processingTime` field is wall-clock instrumentation and is
omitted from the model. -/
structure AudioProcessingResult where
  transcript : String
  confidence : ℚ
  audioResponse : Option (List Nat) := none
  error : Option String := none
deriving DecidableEq

/-- The per-session mutable state of `AudioPipelineService`: the entry of
`audioChunks : Map<string, Buffer[]>` and the membership of the session id
in `processingSessions : Set<string>`.  Sessions are independent in the
source (each map entry is touched only under its own session id), so one
session's state is modelled explicitly; the processing set itself is also
modelled globally below for the single-flight-guard claims. -/
structure SessionState where
  chunks : List (List Nat)
  processing : Bool
deriving DecidableEq, Repr

/-- The result shape of `validateAudioFormat`. -/
structure ValidationResult where
  isValid : Bool
  error : Option String := none
deriving DecidableEq

/-- `AudioPipelineService.validateAudioFormat(audioBuffer)` (lines 168-186):
rejects buffers below 100 bytes, buffers of odd byte length, and buffers
with fewer than 10 distinct byte values (`new Set(audioBuffer).size`,
modelled as the length of `List.dedup`). -/
def validateAudioFormat (audioBuffer : List Nat) : ValidationResult :=
  if audioBuffer.length < 100 then
    { isValid := false, error := some "Audio buffer too small" }
  else if audioBuffer.length % 2 ≠ 0 then
    { isValid := false, error := some "Invalid PCM data: buffer length must be even" }
  else if audioBuffer.dedup.length < 10 then
    { isValid := false,
      error := some "Audio data appears to be invalid (too few unique values)" }
  else { isValid := true }

/-- `AudioPipelineService.optimizeAudioForSpeech(audioBuffer)` (lines
191-212): amplitude-normalize to 0.8, then resample to 16 kHz and downmix
to mono when the configured format differs. -/
def optimizeAudioForSpeech (cfg : AudioPipelineConfig) (audioBuffer : List Nat) :
    List Nat :=
  if cfg.enableAudioOptimization = false then audioBuffer
  else
    let optimized1 := AudioUtils.normalize audioBuffer (8/10)
    let optimized2 :=
      if cfg.sampleRate ≠ 16000 then AudioUtils.resample optimized1 cfg.sampleRate 16000
      else optimized1
    if cfg.channels ≠ 1 then AudioUtils.convertChannels optimized2 cfg.channels 1
    else optimized2

/-- `AudioPipelineService.optimizeAudioForPlayback(audioBuffer)` (lines
217-231): amplitude-normalize to 0.9, then `AudioUtils.addSilence(buf, 50,
44100, 1)`.  Note `addSilence` concatenates the zero bytes after the audio
content even though the call-site comment says "at the beginning". -/
def optimizeAudioForPlayback (cfg : AudioPipelineConfig) (audioBuffer : List Nat) :
    List Nat :=
  if cfg.enableAudioOptimization = false then audioBuffer
  else AudioUtils.addSilence (AudioUtils.normalize audioBuffer (9/10)) 50 44100 1

/-- `AudioPipelineService.getTotalAudioDuration(sessionId)` (lines 264-267):
duration of the concatenation of the session's buffered chunks at the
configured sample rate and channel count. -/
def getTotalAudioDuration (cfg : AudioPipelineConfig) (chunks : List (List Nat)) : ℚ :=
  AudioUtils.getDuration (AudioUtils.mergeChunks chunks) cfg.sampleRate cfg.channels

/-- `AudioPipelineService.processAccumulatedAudio(sessionId)` (lines
106-163), sequentially: the processing-set guard check-and-add (107-111),
the empty-buffer early return (114-117, which returns without removing the
session from the processing set), merge and optimize, the speech call, the
blank-transcript early return (128-133, clears the buffer and releases the
guard), the reply-generation call, the synthesis call guarded by the JS
truthiness of the reply, the success exit (145-153, clears the buffer and
releases the guard), and the catch (154-162), which releases the guard but
does NOT clear the buffer. -/
def processAccumulatedAudio (cfg : AudioPipelineConfig) (collab : Collaborators)
    (st : SessionState) : AudioProcessingResult × SessionState :=
  if st.processing then
    ({ transcript := "", confidence := 0 }, st)
  else
    let st1 : SessionState := { st with processing := true }
    let chunks := st1.chunks
    if chunks = [] then
      ({ transcript := "", confidence := 0 }, st1)
    else
      let audioBuffer := AudioUtils.mergeChunks chunks
      let optimizedAudio := optimizeAudioForSpeech cfg audioBuffer
      match collab.speech optimizedAudio with
      | Except.error e =>
        ({ transcript := "", confidence := 0,
           error := some ("Failed to process audio: " ++ e) },
         { st1 with processing := false })
      | Except.ok none =>
        ({ transcript := "", confidence := 0 },
         { chunks := [], processing := false })
      | Except.ok (some transcription) =>
        if transcription.transcript.trim = "" then
          ({ transcript := "", confidence := 0 },
           { chunks := [], processing := false })
        else
          match collab.chat transcription.transcript with
          | none =>
            ({ transcript := transcription.transcript,
               confidence := transcription.confidence, audioResponse := none },
             { chunks := [], processing := false })
          | some aiResponse =>
            if aiResponse = "" then
              ({ transcript := transcription.transcript,
                 confidence := transcription.confidence, audioResponse := none },
               { chunks := [], processing := false })
            else
              match collab.tts aiResponse with
              | Except.error e =>
                ({ transcript := "", confidence := 0,
                   error := some ("Failed to process audio: " ++ e) },
                 { st1 with processing := false })
              | Except.ok ttsAudio =>
                ({ transcript := transcription.transcript,
                   confidence := transcription.confidence,
                   audioResponse := some (optimizeAudioForPlayback cfg ttsAudio) },
                 { chunks := [], processing := false })

/-- `AudioPipelineService.processAudioChunk(sessionId, audioData)` (lines
52-101): validate the incoming chunk (an invalid chunk throws, the catch
turns it into an error result and the chunk is never appended), append the
chunk, return `null` while the accumulated duration is below 500 ms, and
otherwise run one processing cycle on the accumulated buffer. -/
def processAudioChunk (cfg : AudioPipelineConfig) (collab : Collaborators)
    (st : SessionState) (audioData : List Nat) :
    Option AudioProcessingResult × SessionState :=
  let validationResult := validateAudioFormat audioData
  if validationResult.isValid = false then
    (some { transcript := "", confidence := 0,
            error := some "Failed to process audio: Error: Invalid audio format" },
     st)
  else
    let st1 : SessionState := { st with chunks := st.chunks ++ [audioData] }
    let totalDuration := getTotalAudioDuration cfg st1.chunks
    if totalDuration < 500 then (none, st1)
    else
      let p := processAccumulatedAudio cfg collab st1
      (some p.1, p.2)

/-- Iterated `processAudioChunk` over a list of inbound chunks, threading
the session state (the per-session view of a run of the service). -/
def runPipeline (cfg : AudioPipelineConfig) (collab : Collaborators)
    (st : SessionState) (inputs : List (List Nat)) : SessionState :=
  inputs.foldl (fun s c => (processAudioChunk cfg collab s c).2) st

/-- The processing cycle reaches its catch block exactly when one of the
awaited collaborator calls rejects: the speech-recognition call (line 126)
or, after a non-blank transcript and a truthy reply, the synthesis call
(line 141).  `generateAIResponse` catches its own errors (lines 236-259)
and never throws. -/
def cycleThrows (cfg : AudioPipelineConfig) (collab : Collaborators)
    (chunks : List (List Nat)) : Prop :=
  let optimizedAudio := optimizeAudioForSpeech cfg (AudioUtils.mergeChunks chunks)
  (∃ e, collab.speech optimizedAudio = Except.error e) ∨
  (∃ tr, collab.speech optimizedAudio = Except.ok (some tr) ∧
    tr.transcript.trim ≠ "" ∧
    ∃ ai, collab.chat tr.transcript = some ai ∧ ai ≠ "" ∧
      ∃ e, collab.tts ai = Except.error e)

/-- `tryBeginProcessing(sessionId)`: the check-and-set of the single-flight
guard, inlined in the source at lines 107-111
(`processingSessions.has(sessionId)` followed by
`processingSessions.add(sessionId)`).  Returns whether the cycle may begin
together with the updated processing set; the set is modelled as a
duplicate-free list of session ids. -/
def tryBeginProcessing (processingSessions : List String) (sessionId : String) :
    Bool × List String :=
  if sessionId ∈ processingSessions then (false, processingSessions)
  else (true, sessionId :: processingSessions)

/-- `drainAndEndProcessing(sessionId)`: the guard release,
`processingSessions.delete(sessionId)` in the source (lines 131, 147, 156). -/
def drainAndEndProcessing (processingSessions : List String) (sessionId : String) :
    List String :=
  processingSessions.erase sessionId

/-- One observable guard operation of a trace: a cycle attempting to begin
for a session, or a cycle ending and releasing the session. -/
inductive GuardOp where
  | tryBegin (sessionId : String)
  | endProcessing (sessionId : String)
deriving DecidableEq

/-- Effect of one guard operation on the processing set, paired with the
boolean the operation reports (`tryBegin` reports whether it acquired the
guard; `endProcessing` always succeeds). -/
def guardStep (s : List String) : GuardOp → List String × Bool
  | GuardOp.tryBegin sid =>
    let r := tryBeginProcessing s sid
    (r.2, r.1)
  | GuardOp.endProcessing sid => (drainAndEndProcessing s sid, true)

/-- Processing set after running a trace of guard operations. -/
def runGuardState (s : List String) (ops : List GuardOp) : List String :=
  ops.foldl (fun s op => (guardStep s op).1) s

/-- Reported booleans of a trace of guard operations, in order. -/
def runGuard (s : List String) : List GuardOp → List Bool
  | [] => []
  | op :: ops => (guardStep s op).2 :: runGuard (guardStep s op).1 ops

end AudioPipeline

namespace ChatApi

/-- `MAX_MESSAGES_PER_MINUTE` (src/utils/redis.ts line 13). -/
def MAX_MESSAGES_PER_MINUTE : ℤ := 5

/-- `MAX_MESSAGES_PER_SESSION` (src/utils/redis.ts line 14). -/
def MAX_MESSAGES_PER_SESSION : ℤ := 30

/-- Message role of `ChatMessage` (src/utils/redis.ts lines 17-22). -/
inductive Role where
  | user
  | assistant
deriving DecidableEq

/-- `ChatMessage` (src/utils/redis.ts lines 17-22); the `id` and `timestamp`
fields come from `Date.now()` and are modelled as explicit values. -/
structure ChatMessage where
  id : String
  role : Role
  content : String
  timestamp : ℤ
deriving DecidableEq

/-- Result shape of `checkRateLimit` (src/utils/redis.ts line 155). -/
structure RateLimitResult where
  allowed : Bool
  remaining : ℤ
  resetTime : ℤ
deriving DecidableEq

/-- Abstract snapshot of the redis keys `checkRateLimit` reads for one
session: the per-minute counter value at `rate_limit:id` (absent key reads
as `null`, parsed to 0), the per-session counter at `message_count:id`, and
the TTL reported by redis for the per-minute key (`-2` when the key is
absent, `-1` when it exists without an expiry, otherwise the remaining
seconds). -/
structure RedisSnapshot where
  minuteVal : Option Nat
  totalVal : Option Nat
  ttl : ℤ
deriving DecidableEq

/-- `checkRateLimit(sessionId)` (src/utils/redis.ts lines 155-192): a request
is allowed while the per-minute count is below 5 AND the per-session count
is below 30; `remaining` is the smaller headroom of the two counters, and
`resetTime` is `Date.now() + ttl * 1000` for whatever TTL redis reports on
the per-minute key. -/
def checkRateLimit (redis : RedisSnapshot) (now : ℤ) : RateLimitResult :=
  let minuteCount : ℤ := match redis.minuteVal with | some v => (v : ℤ) | none => 0
  let totalCount : ℤ := match redis.totalVal with | some v => (v : ℤ) | none => 0
  { allowed := decide (minuteCount < MAX_MESSAGES_PER_MINUTE) &&
      decide (totalCount < MAX_MESSAGES_PER_SESSION),
    remaining := min (MAX_MESSAGES_PER_MINUTE - minuteCount)
      (MAX_MESSAGES_PER_SESSION - totalCount),
    resetTime := now + redis.ttl * 1000 }

/-- Responses the chat route handler can produce
(src/app/api/chat/route.ts): a 200 with the assistant message and rate-limit
info, the 429 rate-limited body (lines 69-78), the 400 for invalid request
data, and the 500 catch-all. -/
inductive PostResponse where
  | ok (message : String) (remaining resetTime : ℤ)
  | rateLimited (error : String) (remaining resetTime : ℤ)
  | badRequest
  | serverError
deriving DecidableEq

/-- Abstract collaborators of the chat route: the OpenAI completion (given
the user message and the recent history, returns the assistant content or
`null`).  The embedding generation and Qdrant search only shape the prompt
string and cannot change which messages are persisted, so they are folded
into this oracle. -/
structure ChatOracles where
  completion : String → List ChatMessage → Option String

/-- `POST` handler of src/app/api/chat/route.ts (lines 47-200), modelled for
one request: zod validation (`message` and `sessionId` non-empty), then
`checkRateLimit`; when the limit is hit the handler returns the 429 body
carrying `remaining` and `resetTime` and performs no `addMessageToSession`
call; otherwise it increments the counters, persists the user message,
obtains the completion (a `null` completion throws and is caught as a 500
— with the user message already persisted), persists the assistant message
and returns it with `remaining - 1`.  The returned list is the sequence of
`addMessageToSession` calls the request performed. -/
def POST (oracles : ChatOracles) (redis : RedisSnapshot)
    (history : List ChatMessage) (now : ℤ) (message sessionId : String) :
    PostResponse × List ChatMessage :=
  if message = "" ∨ sessionId = "" then (PostResponse.badRequest, [])
  else
    let rateLimit := checkRateLimit redis now
    if rateLimit.allowed = false then
      (PostResponse.rateLimited
        "Rate limit exceeded. Please wait before sending another message."
        rateLimit.remaining rateLimit.resetTime, [])
    else
      let userMessage : ChatMessage :=
        { id := toString now, role := Role.user, content := message, timestamp := now }
      let allMessages := history ++ [userMessage]
      let recentMessages := allMessages.drop (allMessages.length - 10)
      match oracles.completion message recentMessages with
      | none => (PostResponse.serverError, [userMessage])
      | some assistantResponse =>
        let assistantMessage : ChatMessage :=
          { id := toString (now + 1), role := Role.assistant,
            content := assistantResponse, timestamp := now }
        (PostResponse.ok assistantResponse (rateLimit.remaining - 1)
          rateLimit.resetTime, [userMessage, assistantMessage])

end ChatApi

namespace AudioPipeline

/-- Boolean statement that every chunk of a buffer list passes
`validateAudioFormat` (used to state the validation invariant). -/
def allChunksValid (chunks : List (List Nat)) : Bool :=
  chunks.all (fun b => (validateAudioFormat b).isValid)

/-- Concrete test configuration: 250 Hz mono, so that a 100-byte chunk lasts
exactly 200 ms. -/
def cfg250 : AudioPipelineConfig :=
  { chunkSizeMs := 100, sampleRate := 250, channels := 1,
    enableAudioOptimization := true }

/-- Concrete valid 100-byte test chunk (even length, 16 distinct values). -/
def chunk200ms : List Nat := (List.range 100).map (fun i => i % 16)

/-- Concrete collaborators that always resolve (speech hears nothing). -/
def collabQuiet : Collaborators :=
  { speech := fun _ => Except.ok none, chat := fun _ => none,
    tts := fun _ => Except.ok [] }

/-- Concrete collaborators whose speech-recognition call rejects. -/
def collabSpeechDown : Collaborators :=
  { speech := fun _ => Except.error "speech offline", chat := fun _ => none,
    tts := fun _ => Except.error "tts offline" }

end AudioPipeline

set_option maxRecDepth 8000

namespace AudioUtils

/-- The chunking loop consumes at least one byte per iteration when the
chunk size is positive, so any fuel of at least the buffer length computes
the loop's full (terminating) result. -/
theorem chunkLoop_fuel_irrelevant (k : Nat) (hk : 1 ≤ k) :
    ∀ (n m : Nat) (buf : List Nat), buf.length ≤ n → buf.length ≤ m →
      chunkLoop k n buf = chunkLoop k m buf := by
  intro n
  induction n with
  | zero =>
    intro m buf hn _
    have hbuf : buf = [] := List.eq_nil_of_length_eq_zero (Nat.le_zero.mp hn)
    subst hbuf
    cases m <;> rfl
  | succ n ih =>
    intro m buf hn hm
    cases buf with
    | nil => cases m <;> rfl
    | cons x rest =>
      have hm1 : 1 ≤ m := le_trans (Nat.succ_le_succ (Nat.zero_le _)) hm
      obtain ⟨m1, rfl⟩ : ∃ m1, m = m1 + 1 :=
        ⟨m - 1, (Nat.succ_pred_eq_of_pos hm1).symm⟩
      have hchunk : (x :: rest).take k ≠ [] := by
        obtain ⟨k1, rfl⟩ : ∃ k1, k = k1 + 1 :=
          ⟨k - 1, (Nat.succ_pred_eq_of_pos hk).symm⟩
        simp [List.take]
      have hlen : ((x :: rest).drop k).length ≤ n := by
        have := List.length_drop k (x :: rest)
        simp only [this]
        have : (x :: rest).length ≤ n + 1 := hn
        omega
      have hlenm : ((x :: rest).drop k).length ≤ m1 := by
        have := List.length_drop k (x :: rest)
        simp only [this]
        have : (x :: rest).length ≤ m1 + 1 := hm
        omega
      show chunkLoop k (n + 1) (x :: rest) = chunkLoop k (m1 + 1) (x :: rest)
      simp only [chunkLoop, hchunk, if_neg hchunk]
      rw [ih m1 _ hlen hlenm]

/-- Concatenating the chunks produced by the (sufficiently fuelled) chunking
loop recovers the input buffer byte for byte. -/
theorem chunkLoop_flatten (k : Nat) (hk : 1 ≤ k) :
    ∀ (n : Nat) (buf : List Nat), buf.length ≤ n →
      (chunkLoop k n buf).flatten = buf := by
  intro n
  induction n with
  | zero =>
    intro buf hn
    have hbuf : buf = [] := List.eq_nil_of_length_eq_zero (Nat.le_zero.mp hn)
    subst hbuf
    rfl
  | succ n ih =>
    intro buf hn
    cases buf with
    | nil => rfl
    | cons x rest =>
      have hchunk : (x :: rest).take k ≠ [] := by
        obtain ⟨k1, rfl⟩ : ∃ k1, k = k1 + 1 :=
          ⟨k - 1, (Nat.succ_pred_eq_of_pos hk).symm⟩
        simp [List.take]
      have hlen : ((x :: rest).drop k).length ≤ n := by
        have := List.length_drop k (x :: rest)
        simp only [this]
        have : (x :: rest).length ≤ n + 1 := hn
        omega
      show ((chunkLoop k (n + 1) (x :: rest)).flatten = x :: rest)
      simp only [chunkLoop, if_neg hchunk, List.flatten_cons, ih _ hlen]
      exact List.take_append_drop k (x :: rest)

/-- CLAIM C6 (confirmed with the termination precondition of C10): for every
buffer and parameters whose computed chunk size
`floor(sampleRate * chunkSizeMs / 1000) * 2 * channels` is at least one byte
(the precondition under which the source loop terminates at all, cf. C10),
`mergeChunks (chunkAudio b ms sr ch)` is byte-for-byte equal to `b`:
chunking splits into fixed-size byte windows keeping the non-empty trailing
partial chunk, and merging concatenates them in order with no gaps or
reordering. -/
theorem mergeChunks_chunkAudio_roundTrip
    (buf : List Nat) (chunkSizeMs sampleRate channels : Nat)
    (hpos : 1 ≤ sampleRate * chunkSizeMs / 1000 * (2 * channels)) :
    mergeChunks (chunkAudio buf chunkSizeMs sampleRate channels) = buf := by
  unfold chunkAudio mergeChunks
  simp only []
  have hk : 1 ≤ sampleRate * chunkSizeMs / 1000 * (2 * channels) := hpos
  have := chunkLoop_flatten (sampleRate * chunkSizeMs / 1000 * (2 * channels)) hk
    (buf.length + 1) buf (Nat.le_succ _)
  calc (chunkLoop (sampleRate * chunkSizeMs / 1000 * (2 * channels))
          (buf.length + 1) buf).flatten = buf := this

/-- Witness for C6: the default parameters (100 ms windows at 16 kHz mono,
chunk size 3200 bytes) round-trip a concrete buffer. -/
theorem mergeChunks_chunkAudio_roundTrip_witness :
    1 ≤ 16000 * 100 / 1000 * (2 * 1) ∧
      mergeChunks (chunkAudio [1, 2, 3] 100 16000 1) = [1, 2, 3] :=
  ⟨by decide, mergeChunks_chunkAudio_roundTrip [1, 2, 3] 100 16000 1 (by decide)⟩

/-- The loop index of `chunkAudio` never moves when the computed chunk size
is zero. -/
theorem chunkAudioIndex_zero (n : Nat) : chunkAudioIndex 0 n = 0 := by
  induction n with
  | zero => rfl
  | succ n ih => simp [chunkAudioIndex, ih]

/-- CLAIM C10 (confirmed): (i) with a positive chunk size the chunking loop
terminates — it needs at most `buffer.length` iterations, so its fuelled
model is independent of any fuel of at least the buffer length; (ii) with
chunk size 0 and a non-empty buffer the loop index never advances, so the
loop guard `i < audioBuffer.length` holds at every iteration and the source
loop does not terminate: positive chunk size is a required precondition. -/
theorem chunkAudio_termination :
    (∀ (buf : List Nat) (k fuel : Nat), 1 ≤ k → buf.length ≤ fuel →
      chunkLoop k fuel buf = chunkLoop k buf.length buf) ∧
    (∀ buf : List Nat, buf ≠ [] → ∀ n : Nat, chunkAudioIndex 0 n < buf.length) := by
  constructor
  · intro buf k fuel hk hfuel
    exact chunkLoop_fuel_irrelevant k hk fuel buf.length buf hfuel (Nat.le_refl _)
  · intro buf hbuf n
    rw [chunkAudioIndex_zero]
    exact List.length_pos.mpr hbuf

/-- Witness for C10: fuel irrelevance at chunk size 2 on a 3-byte buffer,
and the stuck loop index for chunk size 0 on a non-empty buffer. -/
theorem chunkAudio_termination_witness :
    (1 ≤ 2 ∧ ([1, 2, 3] : List Nat).length ≤ 9 ∧
      chunkLoop 2 9 [1, 2, 3] = chunkLoop 2 ([1, 2, 3] : List Nat).length [1, 2, 3]) ∧
    (([5] : List Nat) ≠ [] ∧ chunkAudioIndex 0 7 < ([5] : List Nat).length) :=
  ⟨⟨by decide, by decide,
      chunkAudio_termination.1 [1, 2, 3] 2 9 (by decide) (by decide)⟩,
   ⟨by decide, chunkAudio_termination.2 [5] (by decide) 7⟩⟩

/-- CLAIM C7 (code bug): the source intends to reject the empty buffer (it
contains an explicit `throw new Error('Empty audio buffer')` at line 92 of
src/utils/audio.utils.ts), but the `isPCM16` early return at line 80 fires
first — an empty buffer has even length 0, so `toPCM16` returns the empty
buffer instead of raising the validation error, making the empty-buffer
check dead code.  The odd-length half of the claim does hold: an odd-length
buffer is returned zero-padded by one byte. -/
theorem toPCM16_empty_not_rejected :
    AudioUtils.toPCM16 [] 16000 1 = Except.ok [] ∧
    AudioUtils.isPCM16 [] = true ∧
    AudioUtils.toPCM16 [1, 2, 3] 16000 1 = Except.ok [1, 2, 3, 0] :=
  ⟨rfl, rfl, rfl⟩

end AudioUtils

namespace AudioPipeline

/-- CLAIM C8 (code bug): the playback optimization is claimed (and the
call-site comment at src/services/audio-pipeline.service.ts line 227 says)
to place the 50 ms of silence at the BEGINNING of the synthesized audio,
but `AudioUtils.addSilence` concatenates `[audioBuffer, silenceBuffer]`, so
the silence lands AFTER the audio content.  Evaluated at the buffer
`[128, 128]` (all bytes at the 8-bit midpoint, so amplitude normalization
at target 0.9 is the identity): the output is the normalized audio followed
by 4410 zero bytes (50 ms at 44100 Hz mono, 16-bit), its first byte is the
audio byte 128 rather than a silence byte. -/
theorem optimizeAudioForPlayback_appends_silence :
    optimizeAudioForPlayback defaultConfig [128, 128] =
      AudioUtils.normalize [128, 128] (9 / 10) ++ List.replicate 4410 0 ∧
    optimizeAudioForPlayback defaultConfig [128, 128] =
      [128, 128] ++ List.replicate 4410 0 ∧
    (optimizeAudioForPlayback defaultConfig [128, 128]).head? = some 128 :=
  ⟨rfl, rfl, rfl⟩

/-- During a processing cycle started on a non-empty buffer, the cycle
that reaches the catch block (a rejected speech or synthesis call) returns
an error result with blank transcript and zero confidence, removes the
session from the processing set, and leaves the chunk buffer untouched:
the catch at lines 154-162 performs `processingSessions.delete` but no
`audioChunks.set(sessionId, [])`. -/
theorem processAccumulatedAudio_throw
    (cfg : AudioPipelineConfig) (collab : Collaborators) (st : SessionState)
    (hproc : st.processing = false) (hnil : st.chunks ≠ [])
    (hthrow : cycleThrows cfg collab st.chunks) :
    (processAccumulatedAudio cfg collab st).1.transcript = "" ∧
    (processAccumulatedAudio cfg collab st).1.confidence = 0 ∧
    (processAccumulatedAudio cfg collab st).1.error ≠ none ∧
    (processAccumulatedAudio cfg collab st).2.processing = false ∧
    (processAccumulatedAudio cfg collab st).2.chunks = st.chunks := by
  unfold processAccumulatedAudio
  simp only [hproc, Bool.false_eq_true, if_false, hnil, if_neg hnil]
  rcases hthrow with ⟨e, hsp⟩ | ⟨tr, hsp, htrim, ai, hchat, hai, e, htts⟩
  · simp [hsp]
  · simp [hsp, htrim, hchat, hai, htts]

/-- During a processing cycle started on a non-empty buffer on which no
collaborator call rejects, every exit (blank or null transcript, null or
empty reply, successful synthesis) clears the chunk buffer and removes the
session from the processing set. -/
theorem processAccumulatedAudio_noThrow
    (cfg : AudioPipelineConfig) (collab : Collaborators) (st : SessionState)
    (hproc : st.processing = false) (hnil : st.chunks ≠ [])
    (hnothrow : ¬ cycleThrows cfg collab st.chunks) :
    (processAccumulatedAudio cfg collab st).2.processing = false ∧
    (processAccumulatedAudio cfg collab st).2.chunks = [] := by
  unfold processAccumulatedAudio
  simp only [hproc, Bool.false_eq_true, if_false, hnil, if_neg hnil]
  rcases hsp : collab.speech (optimizeAudioForSpeech cfg (AudioUtils.mergeChunks st.chunks))
    with e | otr
  · exact absurd (Or.inl ⟨e, hsp⟩) hnothrow
  · cases otr with
    | none => simp
    | some tr =>
      by_cases htrim : tr.transcript.trim = ""
      · simp [htrim]
      · simp only [htrim, if_neg htrim]
        rcases hchat : collab.chat tr.transcript with _ | ai
        · simp
        · by_cases hai : ai = ""
          · simp [hai]
          · simp only [hai, if_neg hai]
            rcases htts : collab.tts ai with e | ttsAudio
            · exact absurd (Or.inr ⟨tr, hsp, htrim, ai, hchat, hai, e, htts⟩) hnothrow
            · simp

/-- CLAIM C2 counterexample: a processing cycle on the buffered chunk
`[7, 8]` whose speech-recognition call rejects produces the error result,
but the session's chunk buffer afterwards still holds `[7, 8]` — it is not
cleared, refuting "the session's accumulated chunk buffer is cleared" on
the exception path. -/
theorem exception_leaves_buffer_uncleared :
    (processAccumulatedAudio defaultConfig collabSpeechDown
      { chunks := [[7, 8]], processing := false }).2.chunks = [[7, 8]] ∧
    (processAccumulatedAudio defaultConfig collabSpeechDown
      { chunks := [[7, 8]], processing := false }).2.chunks ≠ [] ∧
    (processAccumulatedAudio defaultConfig collabSpeechDown
      { chunks := [[7, 8]], processing := false }).1.error ≠ none :=
  ⟨rfl, by decide, by decide⟩

/-- CLAIM C2 (corrected): when a step of the processing cycle throws (the
speech-recognition or synthesis call rejects — merging, optimization and
reply generation cannot throw, the latter catching its own errors), the
exception is caught and converted into a result with empty transcript,
confidence 0 and an error message, and the processing guard is released —
but, contrary to the original claim, the session's accumulated chunk buffer
is NOT cleared: the consumed chunks stay buffered.  (The hypotheses mirror
how the cycle is invoked: the guard free and the buffer non-empty; the
unreachable empty-buffer early return at lines 114-117 would return with
the flag still set.) -/
theorem exception_caught_guard_released
    (cfg : AudioPipelineConfig) (collab : Collaborators) (st : SessionState)
    (hproc : st.processing = false) (hnil : st.chunks ≠ [])
    (hthrow : cycleThrows cfg collab st.chunks) :
    (processAccumulatedAudio cfg collab st).1.transcript = "" ∧
    (processAccumulatedAudio cfg collab st).1.confidence = 0 ∧
    (processAccumulatedAudio cfg collab st).1.error ≠ none ∧
    (processAccumulatedAudio cfg collab st).2.processing = false ∧
    (processAccumulatedAudio cfg collab st).2.chunks = st.chunks :=
  processAccumulatedAudio_throw cfg collab st hproc hnil hthrow

/-- Witness for C2: the concrete session `{chunks := [[3, 4]], processing :=
false}` with a rejecting speech service. -/
theorem exception_caught_guard_released_witness :
    SessionState.processing { chunks := [[3, 4]], processing := false } = false ∧
    SessionState.chunks { chunks := [[3, 4]], processing := false } ≠ [] ∧
    collabSpeechDown.speech (optimizeAudioForSpeech defaultConfig
      (AudioUtils.mergeChunks [[3, 4]])) = Except.error "speech offline" ∧
    (processAccumulatedAudio defaultConfig collabSpeechDown
      { chunks := [[3, 4]], processing := false }).2.processing = false ∧
    (processAccumulatedAudio defaultConfig collabSpeechDown
      { chunks := [[3, 4]], processing := false }).2.chunks = [[3, 4]] :=
  ⟨rfl, by decide, rfl,
   (exception_caught_guard_released defaultConfig collabSpeechDown
      { chunks := [[3, 4]], processing := false } rfl (by decide)
      (Or.inl ⟨"speech offline", rfl⟩)).2.2.2.1,
   (exception_caught_guard_released defaultConfig collabSpeechDown
      { chunks := [[3, 4]], processing := false } rfl (by decide)
      (Or.inl ⟨"speech offline", rfl⟩)).2.2.2.2⟩

/-- CLAIM C3 counterexample: after the processing cycle on the buffered
chunks `[2, 3], [4, 5]` whose speech call rejects, the session's buffer
still contains the two consumed chunks — not "exactly the chunks appended
during that cycle" (none were appended, so the claim demands an empty
buffer). -/
theorem cycle_buffer_retains_consumed_chunks :
    (processAccumulatedAudio defaultConfig collabSpeechDown
      { chunks := [[2, 3], [4, 5]], processing := false }).2.processing = false ∧
    (processAccumulatedAudio defaultConfig collabSpeechDown
      { chunks := [[2, 3], [4, 5]], processing := false }).2.chunks
      = [[2, 3], [4, 5]] ∧
    (processAccumulatedAudio defaultConfig collabSpeechDown
      { chunks := [[2, 3], [4, 5]], processing := false }).2.chunks ≠ [] :=
  ⟨rfl, rfl, by decide⟩

/-- CLAIM C3 (corrected): immediately after a completed processing cycle
(invoked as in the source with the guard free and the buffer non-empty) the
session's processing flag is false; when no step threw, the buffer is reset
to empty — which equals the chunks appended during the cycle only because
the reset discards everything, consumed or newly appended alike; when a
step threw, the buffer still holds the consumed chunks, contrary to the
original claim. -/
theorem cycle_post_state
    (cfg : AudioPipelineConfig) (collab : Collaborators) (st : SessionState)
    (hproc : st.processing = false) (hnil : st.chunks ≠ []) :
    (processAccumulatedAudio cfg collab st).2.processing = false ∧
    (cycleThrows cfg collab st.chunks →
      (processAccumulatedAudio cfg collab st).2.chunks = st.chunks) ∧
    (¬ cycleThrows cfg collab st.chunks →
      (processAccumulatedAudio cfg collab st).2.chunks = []) := by
  refine ⟨?_, ?_, ?_⟩
  · by_cases hthrow : cycleThrows cfg collab st.chunks
    · exact (processAccumulatedAudio_throw cfg collab st hproc hnil hthrow).2.2.2.1
    · exact (processAccumulatedAudio_noThrow cfg collab st hproc hnil hthrow).1
  · intro hthrow
    exact (processAccumulatedAudio_throw cfg collab st hproc hnil hthrow).2.2.2.2
  · intro hnothrow
    exact (processAccumulatedAudio_noThrow cfg collab st hproc hnil hnothrow).2

/-- Witness for C3: a cycle on the chunk `[1, 2]` with collaborators that
always resolve (speech hears nothing) releases the flag and empties the
buffer. -/
theorem cycle_post_state_witness :
    SessionState.processing { chunks := [[1, 2]], processing := false } = false ∧
    SessionState.chunks { chunks := [[1, 2]], processing := false } ≠ [] ∧
    (processAccumulatedAudio defaultConfig collabQuiet
      { chunks := [[1, 2]], processing := false }).2.processing = false ∧
    (processAccumulatedAudio defaultConfig collabQuiet
      { chunks := [[1, 2]], processing := false }).2.chunks = [] :=
  ⟨rfl, by decide,
   (cycle_post_state defaultConfig collabQuiet
      { chunks := [[1, 2]], processing := false } rfl (by decide)).1,
   (cycle_post_state defaultConfig collabQuiet
      { chunks := [[1, 2]], processing := false } rfl (by decide)).2.2
     (by simp [cycleThrows, collabQuiet])⟩

/-- A processing cycle either leaves the session's chunk buffer unchanged
(guard already held, empty-buffer early return, or catch path) or resets it
to empty (all other exits); it never appends to it. -/
theorem processAccumulatedAudio_chunks_cases
    (cfg : AudioPipelineConfig) (collab : Collaborators) (st : SessionState) :
    (processAccumulatedAudio cfg collab st).2.chunks = st.chunks ∨
    (processAccumulatedAudio cfg collab st).2.chunks = [] := by
  by_cases hst : st.processing = true
  · left
    unfold processAccumulatedAudio
    simp [hst]
  · have hst2 : st.processing = false := by simpa using hst
    by_cases hnil : st.chunks = []
    · left
      unfold processAccumulatedAudio
      simp [hst2, hnil]
    · by_cases hthrow : cycleThrows cfg collab st.chunks
      · exact Or.inl
          (processAccumulatedAudio_throw cfg collab st hst2 hnil hthrow).2.2.2.2
      · exact Or.inr
          (processAccumulatedAudio_noThrow cfg collab st hst2 hnil hthrow).2

/-- Appending a chunk that passed validation preserves chunk-buffer
validity. -/
theorem allChunksValid_append (chunks : List (List Nat)) (c : List Nat)
    (h : allChunksValid chunks = true) (hc : (validateAudioFormat c).isValid = true) :
    allChunksValid (chunks ++ [c]) = true := by
  simp only [allChunksValid, List.all_append, List.all_cons, List.all_nil,
    Bool.and_true, Bool.and_eq_true]
  exact ⟨h, hc⟩

/-- One `processAudioChunk` call preserves the invariant that every
buffered chunk passed `validateAudioFormat`: an invalid chunk throws before
the append (the catch converts it to an error result, the state is
untouched), and a cycle only ever clears or keeps the buffer. -/
theorem processAudioChunk_preserves_valid
    (cfg : AudioPipelineConfig) (collab : Collaborators) (st : SessionState)
    (c : List Nat) (h : allChunksValid st.chunks = true) :
    allChunksValid (processAudioChunk cfg collab st c).2.chunks = true := by
  unfold processAudioChunk
  by_cases hv : (validateAudioFormat c).isValid = false
  · simp [hv, h]
  · have hv2 : (validateAudioFormat c).isValid = true := by simpa using hv
    have hall : allChunksValid (st.chunks ++ [c]) = true :=
      allChunksValid_append st.chunks c h hv2
    simp only [hv2, Bool.true_eq_false, if_false]
    by_cases hdur : getTotalAudioDuration cfg (st.chunks ++ [c]) < 500
    · simpa [hdur] using hall
    · simp only [if_neg hdur]
      rcases processAccumulatedAudio_chunks_cases cfg collab
        { st with chunks := st.chunks ++ [c] } with hc | hc
      · simpa [hc] using hall
      · simp [hc, allChunksValid]

/-- `runPipeline` unfolds one input at a time. -/
theorem runPipeline_cons (cfg : AudioPipelineConfig) (collab : Collaborators)
    (st : SessionState) (c : List Nat) (rest : List (List Nat)) :
    runPipeline cfg collab st (c :: rest) =
      runPipeline cfg collab (processAudioChunk cfg collab st c).2 rest := rfl

/-- CLAIM C5 (confirmed): chunks that fail validation (fewer than 100
bytes, odd byte length, or fewer than 10 distinct byte values) are never
appended to a session's buffer, so only validated chunks can occur in the
buffer — and hence in the merged buffer a cycle passes to the recognition
stage, which is exactly `mergeChunks` of that buffer: (i) every
`processAudioChunk` call preserves all-chunks-validated, and (ii) from a
fresh session every reachable buffer is all-validated. -/
theorem rejected_chunks_never_buffered :
    (∀ (cfg : AudioPipelineConfig) (collab : Collaborators) (st : SessionState)
      (c : List Nat), allChunksValid st.chunks = true →
        allChunksValid (processAudioChunk cfg collab st c).2.chunks = true) ∧
    (∀ (cfg : AudioPipelineConfig) (collab : Collaborators)
      (inputs : List (List Nat)),
        allChunksValid (runPipeline cfg collab
          { chunks := [], processing := false } inputs).chunks = true) := by
  have haux : ∀ (cfg : AudioPipelineConfig) (collab : Collaborators)
      (ins : List (List Nat)) (st : SessionState),
      allChunksValid st.chunks = true →
      allChunksValid (runPipeline cfg collab st ins).chunks = true := by
    intro cfg collab ins
    induction ins with
    | nil => intro st h; simpa [runPipeline] using h
    | cons c rest ih =>
      intro st h
      rw [runPipeline_cons]
      exact ih _ (processAudioChunk_preserves_valid cfg collab st c h)
  exact ⟨fun cfg collab st c h => processAudioChunk_preserves_valid cfg collab st c h,
    fun cfg collab inputs => haux cfg collab inputs _ (by decide)⟩

/-- Witness for C5: submitting the invalid 2-byte chunk `[0, 1]` to a fresh
session leaves the buffer all-validated (the chunk is rejected and never
appended). -/
theorem rejected_chunks_never_buffered_witness :
    allChunksValid (SessionState.chunks { chunks := [], processing := false }) = true ∧
    allChunksValid (processAudioChunk defaultConfig collabQuiet
      { chunks := [], processing := false } [0, 1]).2.chunks = true :=
  ⟨by decide,
   rejected_chunks_never_buffered.1 defaultConfig collabQuiet
     { chunks := [], processing := false } [0, 1] (by decide)⟩

/-- CLAIM C4 (confirmed): an append whose accumulated duration (the
duration function applied to the concatenation of the buffered chunks at
the configured sample rate and channel count) stays below 500 ms returns
`null` with the chunk appended and no cycle started; the append that
reaches or exceeds 500 ms runs exactly one processing cycle on the
accumulated buffer (the single `processAccumulatedAudio` call of lines
83-84), and no cycle ran at the earlier appends. -/
theorem threshold_gates_processing :
    ∀ (cfg : AudioPipelineConfig) (collab : Collaborators) (st : SessionState)
      (c : List Nat), (validateAudioFormat c).isValid = true →
      (getTotalAudioDuration cfg (st.chunks ++ [c]) < 500 →
        processAudioChunk cfg collab st c =
          (none, { st with chunks := st.chunks ++ [c] })) ∧
      (¬ getTotalAudioDuration cfg (st.chunks ++ [c]) < 500 →
        processAudioChunk cfg collab st c =
          (some (processAccumulatedAudio cfg collab
              { st with chunks := st.chunks ++ [c] }).1,
            (processAccumulatedAudio cfg collab
              { st with chunks := st.chunks ++ [c] }).2)) := by
  intro cfg collab st c hvalid
  constructor <;> intro h
  · unfold processAudioChunk
    simp [hvalid, h]
  · unfold processAudioChunk
    simp [hvalid, h]

/-- Witness for C4, the spec scenario at a 250 Hz mono configuration where
the valid 100-byte chunk `chunk200ms` lasts exactly 200 ms: the first two
appends (200 ms, 400 ms accumulated) return `null` and only grow the
buffer; the third (600 ms) runs exactly one processing cycle. -/
theorem threshold_gates_processing_witness :
    (validateAudioFormat chunk200ms).isValid = true ∧
    getTotalAudioDuration cfg250 [chunk200ms] < 500 ∧
    getTotalAudioDuration cfg250 [chunk200ms, chunk200ms] < 500 ∧
    ¬ getTotalAudioDuration cfg250 [chunk200ms, chunk200ms, chunk200ms] < 500 ∧
    processAudioChunk cfg250 collabQuiet
        { chunks := [], processing := false } chunk200ms =
      (none, { chunks := [chunk200ms], processing := false }) ∧
    processAudioChunk cfg250 collabQuiet
        { chunks := [chunk200ms], processing := false } chunk200ms =
      (none, { chunks := [chunk200ms, chunk200ms], processing := false }) ∧
    processAudioChunk cfg250 collabQuiet
        { chunks := [chunk200ms, chunk200ms], processing := false } chunk200ms =
      (some (processAccumulatedAudio cfg250 collabQuiet
          { chunks := [chunk200ms, chunk200ms, chunk200ms], processing := false }).1,
        (processAccumulatedAudio cfg250 collabQuiet
          { chunks := [chunk200ms, chunk200ms, chunk200ms], processing := false }).2) := by
  have hv : (validateAudioFormat chunk200ms).isValid = true := by decide
  have h1 : getTotalAudioDuration cfg250 [chunk200ms] < 500 := by
    simp [getTotalAudioDuration, AudioUtils.getDuration, AudioUtils.mergeChunks,
      chunk200ms, cfg250]
    norm_num
  have h2 : getTotalAudioDuration cfg250 [chunk200ms, chunk200ms] < 500 := by
    simp [getTotalAudioDuration, AudioUtils.getDuration, AudioUtils.mergeChunks,
      chunk200ms, cfg250]
    norm_num
  have h3 : ¬ getTotalAudioDuration cfg250 [chunk200ms, chunk200ms, chunk200ms] < 500 := by
    simp [getTotalAudioDuration, AudioUtils.getDuration, AudioUtils.mergeChunks,
      chunk200ms, cfg250]
    norm_num
  exact ⟨hv, h1, h2, h3,
    (threshold_gates_processing cfg250 collabQuiet
      { chunks := [], processing := false } chunk200ms hv).1 h1,
    (threshold_gates_processing cfg250 collabQuiet
      { chunks := [chunk200ms], processing := false } chunk200ms hv).1 h2,
    (threshold_gates_processing cfg250 collabQuiet
      { chunks := [chunk200ms, chunk200ms], processing := false } chunk200ms hv).2 h3⟩

/-- A guard trace reports one boolean per operation. -/
theorem runGuard_length : ∀ (ops : List GuardOp) (s : List String),
    (runGuard s ops).length = ops.length := by
  intro ops
  induction ops with
  | nil => intro s; rfl
  | cons op rest ih => intro s; simp [runGuard, ih]

/-- `runGuardState` unfolds one operation at a time. -/
theorem runGuardState_cons (s : List String) (op : GuardOp) (ops : List GuardOp) :
    runGuardState s (op :: ops) = runGuardState (guardStep s op).1 ops := rfl

/-- Splitting a guard trace splits its reported booleans, the second part
running from the intermediate processing set. -/
theorem runGuard_append : ∀ (xs ys : List GuardOp) (s : List String),
    runGuard s (xs ++ ys) = runGuard s xs ++ runGuard (runGuardState s xs) ys := by
  intro xs
  induction xs with
  | nil => intro ys s; rfl
  | cons op rest ih =>
    intro ys s
    show (guardStep s op).2 :: runGuard (guardStep s op).1 (rest ++ ys) = _
    rw [ih]
    rfl

/-- A session id in the processing set stays in it across any trace that
contains no `endProcessing` for that id: `tryBegin` only ever inserts, and
`endProcessing` for other ids erases only those ids. -/
theorem mem_runGuardState_of_no_end :
    ∀ (ops : List GuardOp) (s : List String) (sid : String), sid ∈ s →
      (∀ op ∈ ops, op ≠ GuardOp.endProcessing sid) →
      sid ∈ runGuardState s ops := by
  intro ops
  induction ops with
  | nil => intro s sid h _; exact h
  | cons op rest ih =>
    intro s sid h hops
    rw [runGuardState_cons]
    refine ih _ sid ?_ (fun o ho => hops o (List.mem_cons_of_mem op ho))
    cases op with
    | tryBegin sid2 =>
      simp only [guardStep, tryBeginProcessing]
      by_cases hmem : sid2 ∈ s
      · simpa [hmem] using h
      · simp only [if_neg hmem]
        exact List.mem_cons_of_mem sid2 h
    | endProcessing sid2 =>
      have hne : sid ≠ sid2 := by
        intro hEq
        exact (hops (GuardOp.endProcessing sid2) (List.mem_cons_self _ _)) (by rw [hEq])
      simp only [guardStep, drainAndEndProcessing]
      exact (List.mem_erase_of_ne hne).mpr h

/-- CLAIM C1 (confirmed): the single-flight guard acquisition never
succeeds twice for the same session without an intervening release.  In any
trace of guard operations from any initial processing set, if a `tryBegin`
for a session id reports true and no `endProcessing` for that id occurs
before a later `tryBegin` for the same id, that later `tryBegin` reports
false — so no second processing cycle can begin for a session until the
first has removed the id from the processing set. -/
theorem tryBegin_excludes_second_acquire :
    ∀ (s0 : List String) (pre mid post : List GuardOp) (sid : String),
      (runGuard s0 (pre ++ (GuardOp.tryBegin sid :: (mid ++
        GuardOp.tryBegin sid :: post))))[pre.length]? = some true →
      mid.all (fun op => !(op == GuardOp.endProcessing sid)) = true →
      (runGuard s0 (pre ++ (GuardOp.tryBegin sid :: (mid ++
        GuardOp.tryBegin sid :: post))))[pre.length + 1 + mid.length]? = some false := by
  intro s0 pre mid post sid h1 h2
  have hmid : ∀ op ∈ mid, op ≠ GuardOp.endProcessing sid := by
    intro op hop
    have := List.all_eq_true.mp h2 op hop
    simpa using this
  have hlen : (runGuard s0 pre).length = pre.length := runGuard_length pre s0
  rw [runGuard_append] at h1 ⊢
  rw [List.getElem?_append_right (le_of_eq hlen), hlen, Nat.sub_self] at h1
  rw [show runGuard (runGuardState s0 pre)
      (GuardOp.tryBegin sid :: (mid ++ GuardOp.tryBegin sid :: post)) =
    (guardStep (runGuardState s0 pre) (GuardOp.tryBegin sid)).2 ::
      runGuard (guardStep (runGuardState s0 pre) (GuardOp.tryBegin sid)).1
        (mid ++ GuardOp.tryBegin sid :: post) from rfl] at h1 ⊢
  rw [List.getElem?_cons_zero] at h1
  have hb1 : (tryBeginProcessing (runGuardState s0 pre) sid).1 = true := by
    simpa [guardStep] using Option.some.inj h1
  have hnotmem : sid ∉ runGuardState s0 pre := by
    intro hmem
    rw [tryBeginProcessing, if_pos hmem] at hb1
    simp at hb1
  have hstep1 : (guardStep (runGuardState s0 pre) (GuardOp.tryBegin sid)).1 =
      sid :: runGuardState s0 pre := by
    simp [guardStep, tryBeginProcessing, hnotmem]
  rw [hstep1]
  rw [List.getElem?_append_right (by rw [hlen]; omega), hlen]
  have hidx : pre.length + 1 + mid.length - pre.length = mid.length + 1 := by omega
  rw [hidx, List.getElem?_cons_succ]
  rw [runGuard_append]
  have hlen2 : (runGuard (sid :: runGuardState s0 pre) mid).length = mid.length :=
    runGuard_length mid _
  rw [List.getElem?_append_right (le_of_eq hlen2), hlen2, Nat.sub_self]
  have hmem3 : sid ∈ runGuardState (sid :: runGuardState s0 pre) mid :=
    mem_runGuardState_of_no_end mid _ sid (List.mem_cons_self _ _) hmid
  rw [show runGuard (runGuardState (sid :: runGuardState s0 pre) mid)
      (GuardOp.tryBegin sid :: post) =
    (guardStep (runGuardState (sid :: runGuardState s0 pre) mid)
        (GuardOp.tryBegin sid)).2 ::
      runGuard (guardStep (runGuardState (sid :: runGuardState s0 pre) mid)
        (GuardOp.tryBegin sid)).1 post from rfl]
  rw [List.getElem?_cons_zero]
  have hfail : (tryBeginProcessing
      (runGuardState (sid :: runGuardState s0 pre) mid) sid).1 = false := by
    rw [tryBeginProcessing, if_pos hmem3]
  simp [guardStep, hfail]

/-- Witness for C1: from an empty processing set, two consecutive
`tryBegin` operations for session "s" with no `endProcessing` between them
report true then false. -/
theorem tryBegin_excludes_second_acquire_witness :
    (runGuard [] [GuardOp.tryBegin "s", GuardOp.tryBegin "s"])[0]? = some true ∧
    (runGuard [] [GuardOp.tryBegin "s", GuardOp.tryBegin "s"])[1]? = some false :=
  ⟨by decide,
   tryBegin_excludes_second_acquire [] [] [] [] "s" (by decide) (by decide)⟩

end AudioPipeline

namespace ChatApi

/-- CLAIM C9 counterexample: at a reachable redis snapshot where the
per-minute key was recreated by `INCR` after its window expired (so it has
no TTL: redis reports `-1`) and the per-minute cap is reached, the handler
returns the rate-limited response with remaining 0 but a `resetTime` of
`now - 1000`, strictly in the PAST — refuting "a reset time strictly in
the future".  (`resetTime = Date.now() + ttl * 1000` is only in the future
when the reported TTL is positive; `incrementRateLimit` never re-arms the
TTL, and redis reports `-1`/`-2` for keys without expiry / absent keys.) -/
theorem rateLimit_resetTime_in_past :
    (checkRateLimit { minuteVal := some 5, totalVal := some 10, ttl := -1 }
      1000000).allowed = false ∧
    (checkRateLimit { minuteVal := some 5, totalVal := some 10, ttl := -1 }
      1000000).remaining = 0 ∧
    (checkRateLimit { minuteVal := some 5, totalVal := some 10, ttl := -1 }
      1000000).resetTime = 999000 ∧
    (checkRateLimit { minuteVal := some 5, totalVal := some 10, ttl := -1 }
      1000000).resetTime < 1000000 ∧
    POST { completion := fun _ _ => none }
        { minuteVal := some 5, totalVal := some 10, ttl := -1 } [] 1000000 "hi" "s1" =
      (PostResponse.rateLimited
        "Rate limit exceeded. Please wait before sending another message."
        0 999000, []) :=
  ⟨by decide, by decide, by decide, by decide, by decide⟩

/-- CLAIM C9 (corrected): for every chat request whose session has reached
the per-minute or the per-session cap, the handler returns the
rate-limit-exceeded response carrying the remaining count — 0 whenever a
cap is exactly reached — and a reset time equal to `now + ttl * 1000`,
which is strictly in the future only when redis reports a positive TTL on
the per-minute key (not always, see the counterexample); and it persists no
user and no assistant message for that request. -/
theorem rateLimit_response_no_persist :
    ∀ (oracles : ChatOracles) (redis : RedisSnapshot) (history : List ChatMessage)
      (now : ℤ) (message sessionId : String),
      message ≠ "" → sessionId ≠ "" →
      (checkRateLimit redis now).allowed = false →
      POST oracles redis history now message sessionId =
        (PostResponse.rateLimited
          "Rate limit exceeded. Please wait before sending another message."
          (checkRateLimit redis now).remaining (checkRateLimit redis now).resetTime,
         []) ∧
      ((((redis.minuteVal.getD 0 : ℤ) = 5 ∧ (redis.totalVal.getD 0 : ℤ) ≤ 30) ∨
        ((redis.totalVal.getD 0 : ℤ) = 30 ∧ (redis.minuteVal.getD 0 : ℤ) ≤ 5)) →
        (checkRateLimit redis now).remaining = 0) ∧
      (0 < redis.ttl → now < (checkRateLimit redis now).resetTime) := by
  intro oracles redis history now message sessionId hm hs hallow
  refine ⟨?_, ?_, ?_⟩
  · unfold POST
    simp [hm, hs, hallow]
  · intro hcap
    rcases redis with ⟨mv, tv, ttl⟩
    rcases mv with _ | m <;> rcases tv with _ | t <;>
      simp only [checkRateLimit, MAX_MESSAGES_PER_MINUTE, MAX_MESSAGES_PER_SESSION,
        Option.getD_some, Option.getD_none] at hcap ⊢ <;>
      omega
  · intro httl
    simp only [checkRateLimit]
    omega

/-- Witness for C9: a session whose lifetime cap of 30 is exactly reached
inside a live 60-second window is refused with remaining 0, a future reset
time, and no persisted messages. -/
theorem rateLimit_response_no_persist_witness :
    ("hello" : String) ≠ "" ∧ ("s" : String) ≠ "" ∧
    (checkRateLimit { minuteVal := some 2, totalVal := some 30, ttl := 60 }
      5000).allowed = false ∧
    POST { completion := fun _ _ => none }
        { minuteVal := some 2, totalVal := some 30, ttl := 60 } [] 5000 "hello" "s" =
      (PostResponse.rateLimited
        "Rate limit exceeded. Please wait before sending another message."
        (checkRateLimit { minuteVal := some 2, totalVal := some 30, ttl := 60 }
          5000).remaining
        (checkRateLimit { minuteVal := some 2, totalVal := some 30, ttl := 60 }
          5000).resetTime, []) ∧
    (checkRateLimit { minuteVal := some 2, totalVal := some 30, ttl := 60 }
      5000).remaining = 0 ∧
    5000 < (checkRateLimit { minuteVal := some 2, totalVal := some 30, ttl := 60 }
      5000).resetTime := by
  refine ⟨by decide, by decide, by decide, ?_, ?_, ?_⟩
  · exact (rateLimit_response_no_persist { completion := fun _ _ => none }
      { minuteVal := some 2, totalVal := some 30, ttl := 60 } [] 5000 "hello" "s"
      (by decide) (by decide) (by decide)).1
  · exact (rateLimit_response_no_persist { completion := fun _ _ => none }
      { minuteVal := some 2, totalVal := some 30, ttl := 60 } [] 5000 "hello" "s"
      (by decide) (by decide) (by decide)).2.1 (Or.inr ⟨by decide, by decide⟩)
  · exact (rateLimit_response_no_persist { completion := fun _ _ => none }
      { minuteVal := some 2, totalVal := some 30, ttl := 60 } [] 5000 "hello" "s"
      (by decide) (by decide) (by decide)).2.2 (by decide)

end ChatApi
